import Mathlib

/-!
Shallow embedding of the request-admission (rate limiting) and response-cache
layers of the product-catalog repository.

Rate limiter: `src/unnamed/part_006` (createRateLimit / rateLimit / getClientIP
and the pre-configured limiters).  Times are modelled as natural-number
milliseconds; the shared mutable `rateLimitStore` map is threaded explicitly as
a function `String → Option RateLimitEntry`.  A thrown `RateLimitError` is
modelled as `some message` in the result; `none` means the request was
admitted.

Cache: `src/src/lib/cache.ts` (`MemoryCache`, `cacheKeys`, `withCache`,
`invalidateProductCaches`).  `Date.now()` is passed explicitly; stateful
methods return the post-state next to their result.
-/

namespace ProductCatalog

/-- Structure `RateLimitEntry` from part_006: `{ count: number; resetTime: number }`. -/
structure RateLimitEntry where
  count : Nat
  resetTime : Nat
deriving DecidableEq, Repr

/-- The `maxRequests` / `windowMs` part of `RateLimitConfig` from part_006. -/
structure RateLimitConfig where
  maxRequests : Nat
  windowMs : Nat
deriving DecidableEq, Repr

/-- The shared module-level `rateLimitStore : Map<string, RateLimitEntry>`,
modelled as a function from keys to optional entries. -/
def RLStore : Type := String → Option RateLimitEntry

/-- Operation `rateLimitStore.set(key, entry)`. -/
def RLStore.set (s : RLStore) (key : String) (e : RateLimitEntry) : RLStore :=
  fun k => if k = key then some e else s k

/-- The empty store (fresh process). -/
def RLStore.empty : RLStore := fun _ => none

/-- Computes `Math.ceil(ms / 1000)` for a non-negative integer millisecond amount. -/
def ceilSeconds (ms : Nat) : Nat := (ms + 999) / 1000

/-- The message of the `RateLimitError` thrown in part_006 line 57. -/
def rateLimitMessage (secs : Nat) : String :=
  "Rate limit exceeded. Try again in " ++ toString secs ++ " seconds."

/-- The body of the closure returned by `createRateLimit` (part_006 lines
35-66), for an already-computed `key`.  Returns the store after the call and
`none` on admission or `some message` when a `RateLimitError` is thrown.
Note that in the source the entry object is mutated in place
(`entry.count++`) before the limit check, so the incremented count persists in
the store even on the throwing path. -/
def rateLimit (cfg : RateLimitConfig) (key : String) (now : Nat) (s : RLStore) :
    RLStore × Option String :=
  match s key with
  | none =>
      (s.set key ⟨1, now + cfg.windowMs⟩, none)
  | some entry =>
      if now > entry.resetTime then
        (s.set key ⟨1, now + cfg.windowMs⟩, none)
      else
        if entry.count + 1 > cfg.maxRequests then
          (s.set key ⟨entry.count + 1, entry.resetTime⟩,
           some (rateLimitMessage (ceilSeconds (entry.resetTime - now))))
        else
          (s.set key ⟨entry.count + 1, entry.resetTime⟩, none)

/-- Runs a sequence of `rateLimit` calls for one key at the given times,
collecting each call's outcome. -/
def runCalls (cfg : RateLimitConfig) (key : String) :
    RLStore → List Nat → RLStore × List (Option String)
  | s, [] => (s, [])
  | s, t :: ts =>
      let p := rateLimit cfg key t s
      let q := runCalls cfg key p.1 ts
      (q.1, p.2 :: q.2)

/-- The headers of a `NextRequest` that part_006 reads. -/
structure NextRequest where
  xForwardedFor : Option String
  xRealIP : Option String
  cfConnectingIP : Option String
  userAgent : Option String

/-- JavaScript truthiness for a `headers.get` result: `null` and the empty
string are falsy. -/
def headerVal (o : Option String) : Option String :=
  match o with
  | some s => if s = "" then none else some s
  | none => none

/-- Function `getClientIP` from part_006 lines 70-90. -/
def getClientIP (r : NextRequest) : String :=
  match headerVal r.xForwardedFor with
  | some forwarded => ((forwarded.splitOn ",").headD "").trim
  | none =>
      match headerVal r.xRealIP with
      | some realIP => realIP
      | none =>
          match headerVal r.cfConnectingIP with
          | some ip => ip
          | none => "unknown"

/-- A limiter produced by `createRateLimit`: its (resolved) configuration and
key generator.  All limiters share the single module-level `rateLimitStore`. -/
structure RateLimiter where
  cfg : RateLimitConfig
  keyGenerator : NextRequest → String

/-- Function `createRateLimit(config)` with the key generator already defaulted. -/
def createRateLimit (cfg : RateLimitConfig) (keyGen : NextRequest → String) :
    RateLimiter :=
  ⟨cfg, keyGen⟩

/-- One invocation of the limiter's returned `rateLimit` closure on the shared
store. -/
def RateLimiter.call (rl : RateLimiter) (r : NextRequest) (now : Nat)
    (s : RLStore) : RLStore × Option String :=
  rateLimit rl.cfg (rl.keyGenerator r) now s

/-- Limiter `apiRateLimit` (part_006 lines 94-97): 100 requests / 15 minutes, default
key generator `getClientIP`. -/
def apiRateLimit : RateLimiter :=
  createRateLimit ⟨100, 15 * 60 * 1000⟩ getClientIP

/-- Limiter `strictApiRateLimit` (part_006 lines 99-102): 10 requests / 1 minute,
default key generator `getClientIP`. -/
def strictApiRateLimit : RateLimiter :=
  createRateLimit ⟨10, 60 * 1000⟩ getClientIP

/-- Limiter `botProtectionRateLimit` (part_006 lines 105-113): 50 requests / 1 minute,
keyed by `ip:userAgent`. -/
def botProtectionRateLimit : RateLimiter :=
  createRateLimit ⟨50, 60 * 1000⟩
    (fun r => getClientIP r ++ ":" ++ (headerVal r.userAgent).getD "unknown")

/-- A `CacheEntry<T>` from cache.ts lines 2-6: payload, creation timestamp,
time-to-live (all times in milliseconds). -/
structure CacheEntry (α : Type) where
  data : α
  timestamp : Nat
  ttl : Nat
deriving DecidableEq, Repr

/-- A `MemoryCache` instance: its private `Map<string, CacheEntry>` (as a
function from keys to optional entries) and its `defaultTTL`. -/
structure MemoryCache (α : Type) where
  cache : String → Option (CacheEntry α)
  defaultTTL : Nat

/-- A `MemoryCache` with an empty map, as built by the constructor. -/
def MemoryCache.mk0 (α : Type) (defaultTTL : Nat) : MemoryCache α :=
  ⟨fun _ => none, defaultTTL⟩

/-- The stored ttl chosen by `set`: `ttl || this.defaultTTL`, where an absent
or zero (falsy) argument falls back to the default. -/
def effectiveTTL (c : MemoryCache α) (ttl : Option Nat) : Nat :=
  match ttl with
  | some v => if v = 0 then c.defaultTTL else v
  | none => c.defaultTTL

/-- Method `set<T>(key, data, ttl?)` from cache.ts lines 21-29, with `Date.now()`
passed in as `now`. -/
def MemoryCache.set (c : MemoryCache α) (key : String) (data : α)
    (ttl : Option Nat) (now : Nat) : MemoryCache α :=
  { c with cache := fun k =>
      if k = key then some ⟨data, now, effectiveTTL c ttl⟩ else c.cache k }

/-- Method `delete(key)`, i.e. `this.cache.delete(key)` (the boolean result, unused by the code under
verification, is dropped). -/
def MemoryCache.delete (c : MemoryCache α) (key : String) : MemoryCache α :=
  { c with cache := fun k => if k = key then none else c.cache k }

/-- Method `clear()` from cache.ts lines 67-69. -/
def MemoryCache.clear (c : MemoryCache α) : MemoryCache α :=
  { c with cache := fun _ => none }

/-- Method `get<T>(key)` from cache.ts lines 31-45: the returned value (`none`
models the JS `null` result) together with the cache after the call, since an
expired entry is deleted by the lookup. -/
def MemoryCache.get (c : MemoryCache α) (key : String) (now : Nat) :
    Option α × MemoryCache α :=
  match c.cache key with
  | none => (none, c)
  | some entry =>
      if now - entry.timestamp > entry.ttl then
        (none, c.delete key)
      else
        (some entry.data, c)

/-- Method `has(key)` from cache.ts lines 47-61. -/
def MemoryCache.has (c : MemoryCache α) (key : String) (now : Nat) :
    Bool × MemoryCache α :=
  match c.cache key with
  | none => (false, c)
  | some entry =>
      if now - entry.timestamp > entry.ttl then
        (false, c.delete key)
      else
        (true, c)

/-- Key generator `cacheKeys.allProducts()`. -/
def cacheKeys.allProducts : String := "products:all"

/-- Key generator `cacheKeys.productById(id)`. -/
def cacheKeys.productById (id : String) : String := "product:" ++ id

/-- Key generator `cacheKeys.productsByCategory(category)`. -/
def cacheKeys.productsByCategory (category : String) : String :=
  "products:category:" ++ category

/-- Key generator `cacheKeys.productsBySearch(query)`. -/
def cacheKeys.productsBySearch (query : String) : String :=
  "products:search:" ++ query

/-- Key generator `cacheKeys.featuredProducts()`. -/
def cacheKeys.featuredProducts : String := "products:featured"

/-- The two module-level cache instances that `invalidateProductCaches`
mutates: `productCache = new MemoryCache(300000)` and
`apiCache = new MemoryCache(60000)`. -/
structure CacheState (α β : Type) where
  productCache : MemoryCache α
  apiCache : MemoryCache β

/-- The keys deleted from `apiCache` by `invalidateProductCaches` (cache.ts
lines 132-140).  The individual product key is pushed under
`if (productId)`, a JS truthiness test, so an absent id and the falsy empty
string both skip the push. -/
def invalidationKeys (productId : Option String) : List String :=
  [cacheKeys.allProducts, cacheKeys.featuredProducts] ++
    (match productId with
     | some id => if id = "" then [] else [cacheKeys.productById id]
     | none => [])

/-- Function `invalidateProductCaches(productId?)` from cache.ts lines 128-143:
clears `productCache` entirely and deletes the list-level keys (plus the
individual product key when an id is supplied) from `apiCache`. -/
def invalidateProductCaches (productId : Option String)
    (st : CacheState α β) : CacheState α β :=
  { productCache := st.productCache.clear,
    apiCache := (invalidationKeys productId).foldl
      (fun c k => c.delete k) st.apiCache }

/-- State threaded through calls of a function wrapped by `withCache`: the
target cache (whose stored values are JS values of type `Option β`, with
`none` standing for the JS `null`) and the number of invocations of the
underlying function so far. -/
structure WCState (β : Type) where
  cache : MemoryCache (Option β)
  calls : Nat

/-- The JS value observed by the caller of `get` when the stored values are
themselves nullable: both an absent/expired entry and a stored `null`
read back as `null` (`none`). -/
def jsValue (o : Option (Option β)) : Option β :=
  match o with
  | some v => v
  | none => none

/-- One call of the async closure returned by `withCache(fn, keyGenerator,
cache, ttl)` (cache.ts lines 104-125).  The underlying function is modelled
by its behaviour `fn : Nat → τ → Except ε (Option β)` giving, per invocation
index, either the error it rejects with or the JS value it resolves to
(`none` = `null`).  The guard `cached !== null` treats both an absent entry
and a stored `null` as a miss. -/
def withCache (fn : Nat → τ → Except ε (Option β)) (keyGenerator : τ → String)
    (ttl : Option Nat) (args : τ) (now : Nat) (st : WCState β) :
    Except ε (Option β) × WCState β :=
  let key := keyGenerator args
  let looked := st.cache.get key now
  let cached : Option β := jsValue looked.1
  match cached with
  | some v => (Except.ok (some v), ⟨looked.2, st.calls⟩)
  | none =>
      match fn st.calls args with
      | Except.error e => (Except.error e, ⟨looked.2, st.calls + 1⟩)
      | Except.ok result =>
          (Except.ok result,
           ⟨looked.2.set key result ttl now, st.calls + 1⟩)

/-! ### Rate limiter lemmas -/

theorem RLStore.set_self (s : RLStore) (key : String) (e : RateLimitEntry) :
    (s.set key e) key = some e := by
  simp [RLStore.set]

theorem RLStore.set_other (s : RLStore) (key : String) (e : RateLimitEntry)
    (k : String) (h : k ≠ key) : (s.set key e) k = s k := by
  simp [RLStore.set, h]

/-- A call inside the current window (`now ≤ resetTime`) increments the count
and either admits or throws, depending on the quota. -/
theorem rateLimit_inWindow (cfg : RateLimitConfig) (key : String) (now : Nat)
    (s : RLStore) (c R : Nat) (hs : s key = some ⟨c, R⟩) (hnow : now ≤ R) :
    rateLimit cfg key now s =
      (s.set key ⟨c + 1, R⟩,
       if c + 1 ≤ cfg.maxRequests then none
       else some (rateLimitMessage (ceilSeconds (R - now)))) := by
  simp only [rateLimit, hs]
  rw [if_neg (by omega)]
  by_cases hm : c + 1 > cfg.maxRequests
  · rw [if_pos hm, if_neg (by omega)]
  · rw [if_neg hm, if_pos (by omega)]

/-- Running calls against an existing entry `⟨c, R⟩`, all within the window:
the count grows by one per call and the i-th call is admitted exactly when it
does not push the count past the quota. -/
theorem runCalls_loaded (cfg : RateLimitConfig) (key : String) (R : Nat) :
    ∀ (ts : List Nat) (s : RLStore) (c : Nat), s key = some ⟨c, R⟩ →
      (∀ t ∈ ts, t ≤ R) →
      (runCalls cfg key s ts).1 key = some ⟨c + ts.length, R⟩ ∧
      (∀ (i t : Nat), ts[i]? = some t →
        (runCalls cfg key s ts).2[i]? =
          some (if c + i + 1 ≤ cfg.maxRequests then none
                else some (rateLimitMessage (ceilSeconds (R - t))))) := by
  intro ts
  induction ts with
  | nil =>
      intro s c hs _
      refine ⟨by simpa using hs, ?_⟩
      intro i t ht
      simp at ht
  | cons t ts ih =>
      intro s c hs hts
      have hT : t ≤ R := hts t (by simp)
      have hstep := rateLimit_inWindow cfg key t s c R hs hT
      have hs' : (rateLimit cfg key t s).1 key = some ⟨c + 1, R⟩ := by
        rw [hstep]
        exact RLStore.set_self ..
      have hts' : ∀ u ∈ ts, u ≤ R := fun u hu => hts u (List.mem_cons_of_mem _ hu)
      obtain ⟨ih1, ih2⟩ := ih (rateLimit cfg key t s).1 (c + 1) hs' hts'
      have hrun : runCalls cfg key s (t :: ts) =
          ((runCalls cfg key (rateLimit cfg key t s).1 ts).1,
           (rateLimit cfg key t s).2 ::
             (runCalls cfg key (rateLimit cfg key t s).1 ts).2) := rfl
      constructor
      · rw [hrun]
        have : c + 1 + ts.length = c + (ts.length + 1) := by omega
        simpa [this] using ih1
      · intro i u hu
        match i with
        | 0 =>
            have hut : t = u := by simpa using hu
            subst hut
            rw [hrun]
            simp only [List.getElem?_cons_zero]
            rw [hstep]
        | i + 1 =>
            have hu' : ts[i]? = some u := by simpa using hu
            have := ih2 i u hu'
            rw [hrun]
            simp only [List.getElem?_cons_succ]
            have harith : c + 1 + i + 1 = c + (i + 1) + 1 := by omega
            rw [harith] at this
            exact this

/-- C1 (confirmed): with a positive quota (the spec fixes `maxRequests` to be
a positive integer), for a fresh key and any sequence of calls all within the
first call's window, the call at position `i` (the `(i+1)`-st call) is
admitted when `i + 1 ≤ maxRequests` and otherwise throws a `RateLimitError`
whose message carries `ceil((resetTime - now) / 1000)` seconds, where
`resetTime = t0 + windowMs`. -/
theorem rateLimit_quota_within_window (cfg : RateLimitConfig)
    (hmax : 1 ≤ cfg.maxRequests) (key : String) (s : RLStore)
    (hs : s key = none) (t0 : Nat) (ts : List Nat)
    (hts : ∀ t ∈ ts, t ≤ t0 + cfg.windowMs) (i t : Nat)
    (ht : (t0 :: ts)[i]? = some t) :
    (runCalls cfg key s (t0 :: ts)).2[i]? =
      some (if i + 1 ≤ cfg.maxRequests then none
            else some (rateLimitMessage (ceilSeconds (t0 + cfg.windowMs - t)))) := by
  have hstep : rateLimit cfg key t0 s = (s.set key ⟨1, t0 + cfg.windowMs⟩, none) := by
    simp [rateLimit, hs]
  have hrun : runCalls cfg key s (t0 :: ts) =
      ((runCalls cfg key (rateLimit cfg key t0 s).1 ts).1,
       (rateLimit cfg key t0 s).2 ::
         (runCalls cfg key (rateLimit cfg key t0 s).1 ts).2) := rfl
  have hs' : (rateLimit cfg key t0 s).1 key = some ⟨1, t0 + cfg.windowMs⟩ := by
    rw [hstep]
    exact RLStore.set_self ..
  obtain ⟨-, h2⟩ := runCalls_loaded cfg key (t0 + cfg.windowMs) ts
    (rateLimit cfg key t0 s).1 1 hs' hts
  match i with
  | 0 =>
      rw [hrun]
      simp only [List.getElem?_cons_zero]
      rw [hstep]
      rw [if_pos (by omega : 0 + 1 ≤ cfg.maxRequests)]
  | i + 1 =>
      have ht' : ts[i]? = some t := by simpa using ht
      have := h2 i t ht'
      rw [hrun]
      simp only [List.getElem?_cons_succ]
      have harith : 1 + i + 1 = i + 1 + 1 := by omega
      rw [harith] at this
      exact this

/-- Witness for C1: quota 2, window 1000 ms, calls at 0, 5 and 10 ms; the
third call (index 2) is rejected with a 1-second retry message
(`ceil(990 / 1000) = 1`). -/
theorem rateLimit_quota_within_window_witness :
    (1 ≤ (⟨2, 1000⟩ : RateLimitConfig).maxRequests) ∧
    (RLStore.empty "ip1" = none) ∧
    (∀ t ∈ [5, 10], t ≤ 0 + (⟨2, 1000⟩ : RateLimitConfig).windowMs) ∧
    (runCalls ⟨2, 1000⟩ "ip1" RLStore.empty (0 :: [5, 10])).2[2]? =
      some (if 2 + 1 ≤ (⟨2, 1000⟩ : RateLimitConfig).maxRequests then none
            else some (rateLimitMessage
              (ceilSeconds (0 + (⟨2, 1000⟩ : RateLimitConfig).windowMs - 10)))) :=
  ⟨by decide, rfl, by decide,
   rateLimit_quota_within_window ⟨2, 1000⟩ (by decide) "ip1" RLStore.empty rfl
     0 [5, 10] (by decide) 2 10 (by decide)⟩

/-- C2 (corrected): when no entry exists for the key, or the current time is
STRICTLY past the stored entry's reset timestamp, the call is admitted and
the table afterwards holds a fresh entry with count 1 and reset timestamp
`now + windowMs`; in particular, once strictly more than `windowMs` has
elapsed past the first admitted call's time, the next call succeeds and
resets the count to 1 even if the quota was exhausted.  (The claim's "at or
past" fails: at `now = resetTime` the code takes the increment path.) -/
theorem rateLimit_reset_strictly_past (cfg : RateLimitConfig) (key : String)
    (now : Nat) (s : RLStore)
    (h : ∀ e, s key = some e → e.resetTime < now) :
    rateLimit cfg key now s = (s.set key ⟨1, now + cfg.windowMs⟩, none) ∧
    (rateLimit cfg key now s).1 key = some ⟨1, now + cfg.windowMs⟩ := by
  have hstep : rateLimit cfg key now s = (s.set key ⟨1, now + cfg.windowMs⟩, none) := by
    cases hsk : s key with
    | none => simp [rateLimit, hsk]
    | some e =>
        have := h e hsk
        simp only [rateLimit, hsk]
        rw [if_pos (by omega)]
  exact ⟨hstep, by rw [hstep]; exact RLStore.set_self ..⟩

/-- Witness for C2: an exhausted entry (count 99, reset at 1000 ms) is
replaced by a fresh count-1 entry by a call at 1001 ms. -/
theorem rateLimit_reset_strictly_past_witness :
    (∀ e, (RLStore.set RLStore.empty "a" ⟨99, 1000⟩) "a" = some e →
      e.resetTime < 1001) ∧
    rateLimit ⟨1, 1000⟩ "a" 1001 (RLStore.set RLStore.empty "a" ⟨99, 1000⟩) =
      ((RLStore.set RLStore.empty "a" ⟨99, 1000⟩).set "a"
        ⟨1, 1001 + (⟨1, 1000⟩ : RateLimitConfig).windowMs⟩, none) ∧
    (rateLimit ⟨1, 1000⟩ "a" 1001
        (RLStore.set RLStore.empty "a" ⟨99, 1000⟩)).1 "a" =
      some ⟨1, 1001 + (⟨1, 1000⟩ : RateLimitConfig).windowMs⟩ := by
  have h : ∀ e, (RLStore.set RLStore.empty "a" ⟨99, 1000⟩) "a" = some e →
      e.resetTime < 1001 := by
    intro e he
    rw [RLStore.set_self] at he
    cases he
    decide
  obtain ⟨h1, h2⟩ := rateLimit_reset_strictly_past ⟨1, 1000⟩ "a" 1001
    (RLStore.set RLStore.empty "a" ⟨99, 1000⟩) h
  exact ⟨h, h1, h2⟩

/-- Counterexample to C2 as stated: with quota 1, window 1000 ms and an entry
`⟨count 1, resetTime 1000⟩`, a call AT the reset timestamp (now = 1000, "at
or past") is not admitted with a fresh entry; the code increments the stale
entry to count 2 and throws. -/
theorem rateLimit_reset_at_boundary_cex :
    (1000 : Nat) ≥ 1000 ∧
    (rateLimit ⟨1, 1000⟩ "a" 1000 (RLStore.set RLStore.empty "a" ⟨1, 1000⟩)).2 =
      some (rateLimitMessage 0) ∧
    (rateLimit ⟨1, 1000⟩ "a" 1000 (RLStore.set RLStore.empty "a" ⟨1, 1000⟩)).1 "a" =
      some ⟨2, 1000⟩ := by
  refine ⟨by decide, ?_, ?_⟩ <;> decide

/-- C8 (confirmed): a `rateLimit` call whose key resolves to A leaves the
stored entry of every other key B (present or absent) unchanged. -/
theorem rateLimit_other_key_frame (rl : RateLimiter) (r : NextRequest)
    (now : Nat) (s : RLStore) (B : String) (h : B ≠ rl.keyGenerator r) :
    (rl.call r now s).1 B = s B := by
  unfold RateLimiter.call
  cases hsk : s (rl.keyGenerator r) with
  | none =>
      simp only [rateLimit, hsk]
      exact RLStore.set_other s _ _ B h
  | some e =>
      simp only [rateLimit, hsk]
      by_cases h1 : now > e.resetTime
      · rw [if_pos h1]
        exact RLStore.set_other s _ _ B h
      · rw [if_neg h1]
        by_cases h2 : e.count + 1 > (rl.cfg).maxRequests
        · rw [if_pos h2]
          exact RLStore.set_other s _ _ B h
        · rw [if_neg h2]
          exact RLStore.set_other s _ _ B h

/-- Witness for C8: a call through `apiRateLimit` for client 1.2.3.4 leaves
the entry of key "b" untouched. -/
theorem rateLimit_other_key_frame_witness :
    ("b" ≠ apiRateLimit.keyGenerator ⟨none, some "1.2.3.4", none, none⟩) ∧
    (apiRateLimit.call ⟨none, some "1.2.3.4", none, none⟩ 0
        (RLStore.set RLStore.empty "b" ⟨7, 500⟩)).1 "b" =
      (RLStore.set RLStore.empty "b" ⟨7, 500⟩) "b" :=
  ⟨by decide,
   rateLimit_other_key_frame apiRateLimit ⟨none, some "1.2.3.4", none, none⟩ 0
     (RLStore.set RLStore.empty "b" ⟨7, 500⟩) "b" (by decide)⟩

/-- C9 (confirmed): all limiters act on the one shared `rateLimitStore`, keyed
only by the identity string.  `apiRateLimit` and `strictApiRateLimit` use the
same default key generator (`getClientIP`), so when `apiRateLimit` first
creates the entry for a client, a later call through `strictApiRateLimit`
within that window increments the very same count and keeps the reset
timestamp — and hence the 15-minute window — fixed by `apiRateLimit`. -/
theorem rateLimit_shared_store (r : NextRequest) (s : RLStore) (t0 t1 : Nat)
    (h0 : s (getClientIP r) = none)
    (h1 : t1 ≤ t0 + apiRateLimit.cfg.windowMs) :
    apiRateLimit.keyGenerator r = strictApiRateLimit.keyGenerator r ∧
    (apiRateLimit.call r t0 s).1 (getClientIP r) =
      some ⟨1, t0 + apiRateLimit.cfg.windowMs⟩ ∧
    (strictApiRateLimit.call r t1 (apiRateLimit.call r t0 s).1).1
        (getClientIP r) =
      some ⟨2, t0 + apiRateLimit.cfg.windowMs⟩ := by
  have hk1 : apiRateLimit.keyGenerator r = getClientIP r := rfl
  have hk2 : strictApiRateLimit.keyGenerator r = getClientIP r := rfl
  have hfirst : (apiRateLimit.call r t0 s).1 (getClientIP r) =
      some ⟨1, t0 + apiRateLimit.cfg.windowMs⟩ := by
    unfold RateLimiter.call
    rw [hk1]
    simp only [rateLimit, h0]
    exact RLStore.set_self ..
  refine ⟨hk1.trans hk2.symm, hfirst, ?_⟩
  have hcall : strictApiRateLimit.call r t1 (apiRateLimit.call r t0 s).1 =
      rateLimit strictApiRateLimit.cfg (getClientIP r) t1
        (apiRateLimit.call r t0 s).1 := rfl
  rw [hcall]
  rw [rateLimit_inWindow strictApiRateLimit.cfg (getClientIP r) t1
    (apiRateLimit.call r t0 s).1 1 (t0 + apiRateLimit.cfg.windowMs) hfirst h1]
  by_cases h2 : 1 + 1 ≤ strictApiRateLimit.cfg.maxRequests
  · rw [if_pos h2]
    exact RLStore.set_self ..
  · rw [if_neg h2]
    exact RLStore.set_self ..

/-- Witness for C9: a fresh store, `apiRateLimit` admits client 1.2.3.4 at
t = 0 (reset at 900000), and `strictApiRateLimit` at t = 100 bumps that same
entry to count 2 with the reset timestamp still 900000. -/
theorem rateLimit_shared_store_witness :
    (RLStore.empty (getClientIP ⟨none, some "1.2.3.4", none, none⟩) = none) ∧
    ((100 : Nat) ≤ 0 + apiRateLimit.cfg.windowMs) ∧
    (apiRateLimit.keyGenerator ⟨none, some "1.2.3.4", none, none⟩ =
      strictApiRateLimit.keyGenerator ⟨none, some "1.2.3.4", none, none⟩ ∧
    (apiRateLimit.call ⟨none, some "1.2.3.4", none, none⟩ 0 RLStore.empty).1
        (getClientIP ⟨none, some "1.2.3.4", none, none⟩) =
      some ⟨1, 0 + apiRateLimit.cfg.windowMs⟩ ∧
    (strictApiRateLimit.call ⟨none, some "1.2.3.4", none, none⟩ 100
        (apiRateLimit.call ⟨none, some "1.2.3.4", none, none⟩ 0 RLStore.empty).1).1
        (getClientIP ⟨none, some "1.2.3.4", none, none⟩) =
      some ⟨2, 0 + apiRateLimit.cfg.windowMs⟩) :=
  ⟨rfl, by decide,
   rateLimit_shared_store ⟨none, some "1.2.3.4", none, none⟩ RLStore.empty 0 100
     rfl (by decide)⟩

/-! ### Cache lemmas -/

theorem MemoryCache.delete_cache (c : MemoryCache α) (a k : String) :
    (c.delete a).cache k = if k = a then none else c.cache k := rfl

/-- C3 (corrected): for a positive explicit ttl, after `set(k, v, ttl)` a
`get(k)` while `now - storedAt ≤ ttl` returns `v` and leaves the cache
unchanged; a `get(k)` once `now - storedAt > ttl` returns `null` and removes
the stale entry; and `get` of an absent key returns `null` without changing
the cache.  (The claim's "every ttl" fails at ttl = 0, which `set` silently
replaces by the default ttl; see the counterexample.) -/
theorem cache_set_get_freshness (c : MemoryCache α) (k : String) (v : α)
    (ttl : Nat) (h : 0 < ttl) (tset tnow : Nat) :
    (tnow - tset ≤ ttl →
      (c.set k v (some ttl) tset).get k tnow =
        (some v, c.set k v (some ttl) tset)) ∧
    (tnow - tset > ttl →
      (c.set k v (some ttl) tset).get k tnow =
        (none, (c.set k v (some ttl) tset).delete k)) ∧
    (∀ (c2 : MemoryCache α) (k2 : String), c2.cache k2 = none →
      c2.get k2 tnow = (none, c2)) := by
  have hne : ttl ≠ 0 := by omega
  have hk : (c.set k v (some ttl) tset).cache k = some ⟨v, tset, ttl⟩ := by
    simp [MemoryCache.set, effectiveTTL, hne]
  refine ⟨?_, ?_, ?_⟩
  · intro hfresh
    simp only [MemoryCache.get, hk]
    rw [if_neg (by omega)]
  · intro hstale
    simp only [MemoryCache.get, hk]
    rw [if_pos (by omega)]
  · intro c2 k2 habs
    simp [MemoryCache.get, habs]

/-- Witness for C3 (amended): ttl 10 ms on an empty 5-minute cache, set at
t = 0, get at t = 5. -/
theorem cache_set_get_freshness_witness :
    ((0 : Nat) < 10) ∧
    ((5 - 0 ≤ 10 →
      ((MemoryCache.mk0 Nat 300000).set "k" 42 (some 10) 0).get "k" 5 =
        (some 42, (MemoryCache.mk0 Nat 300000).set "k" 42 (some 10) 0)) ∧
    (5 - 0 > 10 →
      ((MemoryCache.mk0 Nat 300000).set "k" 42 (some 10) 0).get "k" 5 =
        (none, (((MemoryCache.mk0 Nat 300000).set "k" 42 (some 10) 0).delete "k"))) ∧
    (∀ (c2 : MemoryCache Nat) (k2 : String), c2.cache k2 = none →
      c2.get k2 5 = (none, c2))) :=
  ⟨by decide, cache_set_get_freshness (MemoryCache.mk0 Nat 300000) "k" 42 10
    (by decide) 0 5⟩

/-- Counterexample to C3 as stated: `set("k", 42, ttl = 0)` at t = 0 and
`get("k")` at t = 1 has `now - storedAt = 1 > 0 = ttl`, yet the code returns
the value 42 rather than absent, because `set` replaced the falsy ttl 0 by
the default. -/
theorem cache_get_zero_ttl_cex :
    ((1 : Nat) - 0 > 0) ∧
    (((MemoryCache.mk0 Nat 300000).set "k" 42 (some 0) 0).get "k" 1).1 =
      some 42 := by
  exact ⟨by decide, rfl⟩

/-- C7 (confirmed): `has` applies the same freshness check as `get`: it
returns `true` exactly when `get` would return the stored value, `false`
exactly when `get` would return `null`, and leaves the cache in the same
post-state as `get` (including eviction of an expired entry). -/
theorem cache_has_agrees_with_get (c : MemoryCache α) (k : String) (now : Nat) :
    (c.has k now).1 = ((c.get k now).1).isSome ∧
    (c.has k now).2 = (c.get k now).2 := by
  cases hk : c.cache k with
  | none => simp [MemoryCache.has, MemoryCache.get, hk]
  | some e =>
      simp only [MemoryCache.has, MemoryCache.get, hk]
      by_cases hx : now - e.timestamp > e.ttl
      · rw [if_pos hx, if_pos hx]
        exact ⟨rfl, rfl⟩
      · rw [if_neg hx, if_neg hx]
        exact ⟨rfl, rfl⟩

/-- C10 (confirmed): `set(k, v, 0)` (ttl 0 is falsy) stores the entry with
the cache's default ttl, so it is not immediately expired: a `get` within the
default ttl returns `v`.  More generally no `set` can create a zero-lifetime
entry when the default ttl is positive. -/
theorem cache_set_zero_ttl_uses_default (c : MemoryCache α) (k : String)
    (v : α) (now : Nat) (h : 0 < c.defaultTTL) :
    (c.set k v (some 0) now).cache k = some ⟨v, now, c.defaultTTL⟩ ∧
    (∀ tnow, tnow - now ≤ c.defaultTTL →
      ((c.set k v (some 0) now).get k tnow).1 = some v) ∧
    (∀ (ttl : Option Nat) (e : CacheEntry α),
      (c.set k v ttl now).cache k = some e → 0 < e.ttl) := by
  have hk : (c.set k v (some 0) now).cache k = some ⟨v, now, c.defaultTTL⟩ := by
    simp [MemoryCache.set, effectiveTTL]
  refine ⟨hk, ?_, ?_⟩
  · intro tnow hfresh
    simp only [MemoryCache.get, hk]
    rw [if_neg (by omega)]
  · intro ttl e he
    have : (c.set k v ttl now).cache k = some ⟨v, now, effectiveTTL c ttl⟩ := by
      simp [MemoryCache.set]
    rw [this] at he
    cases he
    cases ttl with
    | none => exact h
    | some t =>
        by_cases ht : t = 0
        · simpa [effectiveTTL, ht] using h
        · simpa [effectiveTTL, ht] using Nat.pos_of_ne_zero ht

/-- Witness for C10: the 1-minute `apiCache` (default ttl 60000): a ttl-0
`set` stores ttl 60000 and a get 59999 ms later still returns the value. -/
theorem cache_set_zero_ttl_uses_default_witness :
    ((0 : Nat) < (MemoryCache.mk0 Nat 60000).defaultTTL) ∧
    (((MemoryCache.mk0 Nat 60000).set "k" 7 (some 0) 0).cache "k" =
      some ⟨7, 0, (MemoryCache.mk0 Nat 60000).defaultTTL⟩ ∧
    (∀ tnow, tnow - 0 ≤ (MemoryCache.mk0 Nat 60000).defaultTTL →
      (((MemoryCache.mk0 Nat 60000).set "k" 7 (some 0) 0).get "k" tnow).1 =
        some 7) ∧
    (∀ (ttl : Option Nat) (e : CacheEntry Nat),
      ((MemoryCache.mk0 Nat 60000).set "k" 7 ttl 0).cache "k" = some e →
        0 < e.ttl)) :=
  ⟨by decide, cache_set_zero_ttl_uses_default (MemoryCache.mk0 Nat 60000) "k" 7
    0 (by decide)⟩

/-- Deleting a list of keys (the `keysToDelete.forEach` loop) removes exactly
those keys and leaves every other entry unchanged. -/
theorem foldl_delete_cache (ks : List String) (c : MemoryCache β) (k : String) :
    (ks.foldl (fun c k => c.delete k) c).cache k =
      if k ∈ ks then none else c.cache k := by
  induction ks generalizing c with
  | nil => simp
  | cons a ks ih =>
      simp only [List.foldl_cons, ih, MemoryCache.delete_cache]
      by_cases hk : k ∈ ks
      · simp [hk]
      · by_cases hka : k = a
        · simp [hk, hka]
        · simp [hk, hka]

theorem categoryKey_ne_allProducts (c : String) :
    cacheKeys.productsByCategory c ≠ cacheKeys.allProducts := by
  intro h
  have hd := congrArg String.data h
  simp [cacheKeys.productsByCategory, cacheKeys.allProducts,
    String.data_append] at hd

theorem categoryKey_ne_featuredProducts (c : String) :
    cacheKeys.productsByCategory c ≠ cacheKeys.featuredProducts := by
  intro h
  have hd := congrArg String.data h
  simp [cacheKeys.productsByCategory, cacheKeys.featuredProducts,
    String.data_append] at hd

theorem categoryKey_ne_productById (c id : String) :
    cacheKeys.productsByCategory c ≠ cacheKeys.productById id := by
  intro h
  have hd := congrArg String.data h
  simp [cacheKeys.productsByCategory, cacheKeys.productById,
    String.data_append] at hd

theorem searchKey_ne_allProducts (q : String) :
    cacheKeys.productsBySearch q ≠ cacheKeys.allProducts := by
  intro h
  have hd := congrArg String.data h
  simp [cacheKeys.productsBySearch, cacheKeys.allProducts,
    String.data_append] at hd

theorem searchKey_ne_featuredProducts (q : String) :
    cacheKeys.productsBySearch q ≠ cacheKeys.featuredProducts := by
  intro h
  have hd := congrArg String.data h
  simp [cacheKeys.productsBySearch, cacheKeys.featuredProducts,
    String.data_append] at hd

theorem searchKey_ne_productById (q id : String) :
    cacheKeys.productsBySearch q ≠ cacheKeys.productById id := by
  intro h
  have hd := congrArg String.data h
  simp [cacheKeys.productsBySearch, cacheKeys.productById,
    String.data_append] at hd

theorem categoryKey_not_invalidated (pid : Option String) (c : String) :
    cacheKeys.productsByCategory c ∉ invalidationKeys pid := by
  cases pid with
  | none =>
      intro hmem
      simp only [invalidationKeys, List.append_nil, List.mem_cons,
        List.not_mem_nil, or_false] at hmem
      rcases hmem with h | h
      · exact categoryKey_ne_allProducts c h
      · exact categoryKey_ne_featuredProducts c h
  | some id =>
      by_cases hid : id = ""
      · intro hmem
        simp only [invalidationKeys, if_pos hid, List.append_nil,
          List.mem_cons, List.not_mem_nil, or_false] at hmem
        rcases hmem with h | h
        · exact categoryKey_ne_allProducts c h
        · exact categoryKey_ne_featuredProducts c h
      · intro hmem
        simp only [invalidationKeys, if_neg hid, List.mem_append,
          List.mem_cons, List.not_mem_nil, or_false] at hmem
        rcases hmem with (h | h) | h
        · exact categoryKey_ne_allProducts c h
        · exact categoryKey_ne_featuredProducts c h
        · exact categoryKey_ne_productById c id h

theorem searchKey_not_invalidated (pid : Option String) (q : String) :
    cacheKeys.productsBySearch q ∉ invalidationKeys pid := by
  cases pid with
  | none =>
      intro hmem
      simp only [invalidationKeys, List.append_nil, List.mem_cons,
        List.not_mem_nil, or_false] at hmem
      rcases hmem with h | h
      · exact searchKey_ne_allProducts q h
      · exact searchKey_ne_featuredProducts q h
  | some id =>
      by_cases hid : id = ""
      · intro hmem
        simp only [invalidationKeys, if_pos hid, List.append_nil,
          List.mem_cons, List.not_mem_nil, or_false] at hmem
        rcases hmem with h | h
        · exact searchKey_ne_allProducts q h
        · exact searchKey_ne_featuredProducts q h
      · intro hmem
        simp only [invalidationKeys, if_neg hid, List.mem_append,
          List.mem_cons, List.not_mem_nil, or_false] at hmem
        rcases hmem with (h | h) | h
        · exact searchKey_ne_allProducts q h
        · exact searchKey_ne_featuredProducts q h
        · exact searchKey_ne_productById q id h

/-- C4 (corrected): after `invalidateProductCaches`, `get` on the API cache
for the "all products" and "featured products" keys returns absent, and so
does the individual product key when a NON-EMPTY id was supplied — even if
those entries were populated and unexpired.  Category- and search-scoped
entries of the API cache are untouched: their stored entries (and hence
their natural TTL expiry) are exactly as before the invalidation.  (The
claim's "when id was supplied" fails at the empty id: the source pushes the
individual key under the truthiness test `if (productId)`, which the falsy
empty string skips; see the counterexample.) -/
theorem invalidateProductCaches_api (st : CacheState α β) (pid : Option String)
    (id : String) (hid : id ≠ "") (now : Nat) (category query : String) :
    ((invalidateProductCaches pid st).apiCache.get cacheKeys.allProducts now).1 =
      none ∧
    ((invalidateProductCaches pid st).apiCache.get cacheKeys.featuredProducts
      now).1 = none ∧
    ((invalidateProductCaches (some id) st).apiCache.get
      (cacheKeys.productById id) now).1 = none ∧
    (invalidateProductCaches pid st).apiCache.cache
        (cacheKeys.productsByCategory category) =
      st.apiCache.cache (cacheKeys.productsByCategory category) ∧
    (invalidateProductCaches pid st).apiCache.cache
        (cacheKeys.productsBySearch query) =
      st.apiCache.cache (cacheKeys.productsBySearch query) := by
  have hdel : ∀ (pid2 : Option String) (k : String),
      (invalidateProductCaches pid2 st).apiCache.cache k =
        if k ∈ invalidationKeys pid2 then none else st.apiCache.cache k := by
    intro pid2 k
    exact foldl_delete_cache (invalidationKeys pid2) st.apiCache k
  have habs : ∀ (pid2 : Option String) (k : String), k ∈ invalidationKeys pid2 →
      ((invalidateProductCaches pid2 st).apiCache.get k now).1 = none := by
    intro pid2 k hk
    have h0 : (invalidateProductCaches pid2 st).apiCache.cache k = none := by
      rw [hdel pid2 k, if_pos hk]
    simp [MemoryCache.get, h0]
  refine ⟨habs pid _ ?_, habs pid _ ?_, habs (some id) _ ?_, ?_, ?_⟩
  · simp [invalidationKeys]
  · simp [invalidationKeys]
  · simp [invalidationKeys, hid]
  · rw [hdel pid _, if_neg (categoryKey_not_invalidated pid category)]
  · rw [hdel pid _, if_neg (searchKey_not_invalidated pid query)]

/-- Witness for C4 (amended): empty 5-minute product cache and 1-minute API
cache, invalidation for the non-empty id "42". -/
theorem invalidateProductCaches_api_witness :
    ("42" ≠ "") ∧
    (((invalidateProductCaches (some "42")
        (⟨MemoryCache.mk0 Nat 300000, MemoryCache.mk0 Nat 60000⟩ :
          CacheState Nat Nat)).apiCache.get cacheKeys.allProducts 0).1 =
      none ∧
    ((invalidateProductCaches (some "42")
        (⟨MemoryCache.mk0 Nat 300000, MemoryCache.mk0 Nat 60000⟩ :
          CacheState Nat Nat)).apiCache.get cacheKeys.featuredProducts 0).1 =
      none ∧
    ((invalidateProductCaches (some "42")
        (⟨MemoryCache.mk0 Nat 300000, MemoryCache.mk0 Nat 60000⟩ :
          CacheState Nat Nat)).apiCache.get (cacheKeys.productById "42") 0).1 =
      none ∧
    (invalidateProductCaches (some "42")
        (⟨MemoryCache.mk0 Nat 300000, MemoryCache.mk0 Nat 60000⟩ :
          CacheState Nat Nat)).apiCache.cache
        (cacheKeys.productsByCategory "electronics") =
      (⟨MemoryCache.mk0 Nat 300000, MemoryCache.mk0 Nat 60000⟩ :
        CacheState Nat Nat).apiCache.cache
        (cacheKeys.productsByCategory "electronics") ∧
    (invalidateProductCaches (some "42")
        (⟨MemoryCache.mk0 Nat 300000, MemoryCache.mk0 Nat 60000⟩ :
          CacheState Nat Nat)).apiCache.cache
        (cacheKeys.productsBySearch "widget") =
      (⟨MemoryCache.mk0 Nat 300000, MemoryCache.mk0 Nat 60000⟩ :
        CacheState Nat Nat).apiCache.cache
        (cacheKeys.productsBySearch "widget")) :=
  ⟨by decide,
   invalidateProductCaches_api
     (⟨MemoryCache.mk0 Nat 300000, MemoryCache.mk0 Nat 60000⟩ :
       CacheState Nat Nat)
     (some "42") "42" (by decide) 0 "electronics" "widget"⟩

/-- Counterexample to C4 as stated: an unexpired entry under the key
`product:` (the individual key of the empty id, stored at t = 0 with ttl
60000).  `invalidateProductCaches("")` was given an id, yet the JS truthiness
guard `if (productId)` skips the falsy empty string, so the entry survives
and `get` still returns it. -/
theorem invalidateProductCaches_empty_id_cex :
    (cacheKeys.productById "" = "product:") ∧
    ((((MemoryCache.mk0 Nat 60000).set "product:" 9 (some 60000) 0).get
        "product:" 0).1 = some 9) ∧
    ((invalidateProductCaches (some "")
        (⟨MemoryCache.mk0 Nat 300000,
          (MemoryCache.mk0 Nat 60000).set "product:" 9 (some 60000) 0⟩ :
          CacheState Nat Nat)).apiCache.get (cacheKeys.productById "") 0).1 =
      some 9 :=
  ⟨rfl, rfl, rfl⟩

/-! ### Memoizing wrapper (`withCache`) -/

/-- A miss with a successful underlying call stores the resolved value and
returns it. -/
theorem withCache_miss_ok (fn : Nat → τ → Except ε (Option β))
    (keyGen : τ → String) (ttl : Option Nat) (args : τ) (now : Nat)
    (st : WCState β) (w : Option β)
    (hmiss : jsValue (st.cache.get (keyGen args) now).1 = none)
    (hfn : fn st.calls args = Except.ok w) :
    withCache fn keyGen ttl args now st =
      (Except.ok w,
       ⟨(st.cache.get (keyGen args) now).2.set (keyGen args) w ttl now,
        st.calls + 1⟩) := by
  simp only [withCache, hmiss, hfn]

/-- C5 (corrected): starting with no entry for the key, when the first call's
underlying computation resolves to a non-null value `v`, a second call with
identical arguments within the stored TTL window invokes the underlying
function exactly once in total and the second call returns the first call's
resolved value — even though the underlying function (quantified over all
behaviours of later invocations) could now return anything else.  (The
claim's "at most once" fails when the resolved value is the JS `null`, which
the hit test `cached !== null` cannot distinguish from a miss; see the
counterexample.) -/
theorem withCache_memoizes_nonnull (fn : Nat → τ → Except ε (Option β))
    (keyGen : τ → String) (ttl : Option Nat) (args : τ) (t0 t1 : Nat)
    (st : WCState β) (v : β)
    (hmiss : st.cache.cache (keyGen args) = none)
    (hfn : fn st.calls args = Except.ok (some v))
    (hfresh : t1 - t0 ≤ effectiveTTL st.cache ttl) :
    (withCache fn keyGen ttl args t0 st).1 = Except.ok (some v) ∧
    (withCache fn keyGen ttl args t1 (withCache fn keyGen ttl args t0 st).2).1 =
      Except.ok (some v) ∧
    (withCache fn keyGen ttl args t1
      (withCache fn keyGen ttl args t0 st).2).2.calls = st.calls + 1 := by
  have hget0 : st.cache.get (keyGen args) t0 = (none, st.cache) := by
    simp [MemoryCache.get, hmiss]
  have h1 : withCache fn keyGen ttl args t0 st =
      (Except.ok (some v),
       ⟨st.cache.set (keyGen args) (some v) ttl t0, st.calls + 1⟩) := by
    have h := withCache_miss_ok fn keyGen ttl args t0 st (some v)
      (by rw [hget0]; rfl) hfn
    rw [hget0] at h
    exact h
  have hstored :
      (st.cache.set (keyGen args) (some v) ttl t0).cache (keyGen args) =
        some ⟨some v, t0, effectiveTTL st.cache ttl⟩ := by
    simp [MemoryCache.set]
  have hget1 :
      ((st.cache.set (keyGen args) (some v) ttl t0).get (keyGen args) t1).1 =
        some (some v) := by
    simp only [MemoryCache.get, hstored]
    rw [if_neg (by omega)]
  refine ⟨by rw [h1], ?_, ?_⟩ <;>
  · rw [h1]
    simp only [withCache, hget1, jsValue]

/-- Witness for C5 (amended): an empty one-minute cache, both calls at t = 0,
an underlying function resolving to 42 on its first invocation and to 0 on
any later one; the second call still returns 42 and only one invocation
happened. -/
theorem withCache_memoizes_nonnull_witness :
    ((MemoryCache.mk0 (Option Nat) 60000).cache "k" = none) ∧
    ((fun i (_ : Unit) => if i = 0 then Except.ok (some 42) else
        (Except.ok (some 0) : Except Unit (Option Nat))) 0 () =
      Except.ok (some 42)) ∧
    ((0 : Nat) - 0 ≤ effectiveTTL (MemoryCache.mk0 (Option Nat) 60000) none) ∧
    ((withCache (fun i (_ : Unit) => if i = 0 then Except.ok (some 42) else
        (Except.ok (some 0) : Except Unit (Option Nat))) (fun _ => "k") none ()
        0 ⟨MemoryCache.mk0 (Option Nat) 60000, 0⟩).1 = Except.ok (some 42) ∧
     (withCache (fun i (_ : Unit) => if i = 0 then Except.ok (some 42) else
        (Except.ok (some 0) : Except Unit (Option Nat))) (fun _ => "k") none ()
        0 ((withCache (fun i (_ : Unit) => if i = 0 then Except.ok (some 42)
            else (Except.ok (some 0) : Except Unit (Option Nat)))
          (fun _ => "k") none () 0
          ⟨MemoryCache.mk0 (Option Nat) 60000, 0⟩).2)).1 =
       Except.ok (some 42) ∧
     (withCache (fun i (_ : Unit) => if i = 0 then Except.ok (some 42) else
        (Except.ok (some 0) : Except Unit (Option Nat))) (fun _ => "k") none ()
        0 ((withCache (fun i (_ : Unit) => if i = 0 then Except.ok (some 42)
            else (Except.ok (some 0) : Except Unit (Option Nat)))
          (fun _ => "k") none () 0
          ⟨MemoryCache.mk0 (Option Nat) 60000, 0⟩).2)).2.calls = 0 + 1) :=
  ⟨rfl, rfl, by decide,
   withCache_memoizes_nonnull
     (fun i (_ : Unit) => if i = 0 then Except.ok (some 42) else
       (Except.ok (some 0) : Except Unit (Option Nat)))
     (fun _ => "k") none () 0 0 ⟨MemoryCache.mk0 (Option Nat) 60000, 0⟩ 42
     rfl rfl (by decide)⟩

/-- Counterexample to C5 as stated: an underlying function that resolves to
the JS `null` on every invocation.  The first call stores `null`, but the hit
test `cached !== null` treats the stored `null` as a miss, so an immediate
second identical call (well within the TTL window) invokes the underlying
function again: two invocations, not at most one. -/
theorem withCache_null_refetch_cex :
    ((0 : Nat) - 0 ≤
      effectiveTTL (MemoryCache.mk0 (Option Nat) 60000) (some 1000)) ∧
    (withCache (fun _ (_ : Unit) => (Except.ok none : Except Unit (Option Nat)))
      (fun _ => "k") (some 1000) () 0
      ((withCache (fun _ (_ : Unit) =>
          (Except.ok none : Except Unit (Option Nat)))
        (fun _ => "k") (some 1000) () 0
        ⟨MemoryCache.mk0 (Option Nat) 60000, 0⟩).2)).2.calls = 2 :=
  ⟨by decide, rfl⟩

/-- C6 (corrected): when the lookup misses and the underlying computation
rejects with error `e`, the wrapped call propagates exactly `e`, the
invocation happened, and nothing is stored: the cache afterwards is exactly
the post-lookup cache — which equals the original cache except that a stale
(expired) entry for the key, if one existed, was evicted by the lookup
itself.  (The claim's "the cache entry for that key is unchanged" fails in
that eviction case; see the counterexample.) -/
theorem withCache_error_propagates (fn : Nat → τ → Except ε (Option β))
    (keyGen : τ → String) (ttl : Option Nat) (args : τ) (now : Nat)
    (st : WCState β) (e : ε)
    (hmiss : jsValue (st.cache.get (keyGen args) now).1 = none)
    (hfn : fn st.calls args = Except.error e) :
    (withCache fn keyGen ttl args now st).1 = Except.error e ∧
    (withCache fn keyGen ttl args now st).2.cache =
      (st.cache.get (keyGen args) now).2 ∧
    (withCache fn keyGen ttl args now st).2.calls = st.calls + 1 := by
  refine ⟨?_, ?_, ?_⟩ <;> simp only [withCache, hmiss, hfn]

/-- Witness for C6 (amended): a cache holding a stale entry for "k" (stored
at t = 0 with ttl 5, looked up at t = 10); the underlying function rejects,
the error comes back unchanged and the post-call cache is the post-lookup
cache. -/
theorem withCache_error_propagates_witness :
    (jsValue ((((MemoryCache.mk0 (Option Nat) 60000).set "k" (some 1) (some 5)
        0).get "k" 10).1) = none) ∧
    ((fun _ (_ : Unit) => (Except.error 7 : Except Nat (Option Nat))) 0 () =
      Except.error 7) ∧
    ((withCache (fun _ (_ : Unit) => (Except.error 7 : Except Nat (Option Nat)))
        (fun _ => "k") none () 10
        ⟨(MemoryCache.mk0 (Option Nat) 60000).set "k" (some 1) (some 5) 0,
         0⟩).1 = Except.error 7 ∧
     (withCache (fun _ (_ : Unit) => (Except.error 7 : Except Nat (Option Nat)))
        (fun _ => "k") none () 10
        ⟨(MemoryCache.mk0 (Option Nat) 60000).set "k" (some 1) (some 5) 0,
         0⟩).2.cache =
       (((MemoryCache.mk0 (Option Nat) 60000).set "k" (some 1) (some 5)
         0).get "k" 10).2 ∧
     (withCache (fun _ (_ : Unit) => (Except.error 7 : Except Nat (Option Nat)))
        (fun _ => "k") none () 10
        ⟨(MemoryCache.mk0 (Option Nat) 60000).set "k" (some 1) (some 5) 0,
         0⟩).2.calls = 0 + 1) :=
  ⟨rfl, rfl,
   withCache_error_propagates
     (fun _ (_ : Unit) => (Except.error 7 : Except Nat (Option Nat)))
     (fun _ => "k") none () 10
     ⟨(MemoryCache.mk0 (Option Nat) 60000).set "k" (some 1) (some 5) 0, 0⟩ 7
     rfl rfl⟩

/-- Counterexample to C6 as stated: the cache holds an expired entry for the
key (stored at t = 0, ttl 5, call at t = 10).  The underlying computation
rejects, and the error is not stored — but the entry for the key is NOT
unchanged: the lookup inside the wrapped call evicted it. -/
theorem withCache_error_evicts_stale_cex :
    (((MemoryCache.mk0 (Option Nat) 60000).set "k" (some 1) (some 5) 0).cache
        "k" = some ⟨some 1, 0, 5⟩) ∧
    (withCache (fun _ (_ : Unit) => (Except.error 7 : Except Nat (Option Nat)))
      (fun _ => "k") none () 10
      ⟨(MemoryCache.mk0 (Option Nat) 60000).set "k" (some 1) (some 5) 0,
       0⟩).1 = Except.error 7 ∧
    (withCache (fun _ (_ : Unit) => (Except.error 7 : Except Nat (Option Nat)))
      (fun _ => "k") none () 10
      ⟨(MemoryCache.mk0 (Option Nat) 60000).set "k" (some 1) (some 5) 0,
       0⟩).2.cache.cache "k" = none :=
  ⟨rfl, rfl, rfl⟩

end ProductCatalog
